import Mathlib

/-!
Verification of the retrieval, refinement and matching pipeline of the
Gift-Genie backend. The definitions below are a shallow embedding of
`backend/services/ai/naver_recommendation_engine.py`,
`backend/services/ai/intelligent_query_refinement.py` and
`backend/services/ai/enhanced_naver_engine.py`. Python machine integers are
modelled by `Int`, Python floats by `ℚ` (the float arithmetic performed by
the code stays far inside the exactly-representable range, so no rounding
behaviour is lost for the properties at issue), Python strings by `String`,
and fallible operations by `Option`. Outbound network effects (the commerce
search HTTP call, the language-model judge call) are passed in as explicit
outcome values, so every embedded function is a pure function of its inputs.
-/

set_option maxRecDepth 10000

/-! ### Small Python-faithful string helpers

Core `String` functions such as `String.trim`, `String.toUpper` and
`String.split` do not reduce well, so the embedding uses character-list
implementations of the Python primitives the code relies on. -/

/-- Membership of `pat` as a contiguous substring of `hay`, modelling the
Python expression `pat in hay` (for the non-empty patterns the code uses). -/
def strContains (hay pat : String) : Bool :=
  (List.range (hay.toList.length + 1)).any
    (fun i => pat.toList.isPrefixOf (hay.toList.drop i))

/-- Lower-cases every character, modelling Python `str.lower` on the ASCII
and Hangul strings appearing in this codebase (Hangul has no case). -/
def pyLower (s : String) : String := String.mk (s.toList.map Char.toLower)

/-- Upper-cases every character, modelling Python `str.upper` likewise. -/
def pyUpper (s : String) : String := String.mk (s.toList.map Char.toUpper)

/-- Strips leading and trailing whitespace, modelling Python `str.strip()`. -/
def pyStrip (s : String) : String :=
  String.mk (((s.toList.dropWhile Char.isWhitespace).reverse.dropWhile
    Char.isWhitespace).reverse)

/-- Value of a decimal numeral, used by the model of Python `int()`. -/
def parseDigits (cs : List Char) : Option Nat :=
  if cs ≠ [] ∧ cs.all Char.isDigit then
    some (cs.foldl (fun a c => a * 10 + (c.toNat - 48)) 0)
  else none

/-- Model of Python `int(s)`: surrounding whitespace is ignored, then an
optional sign and at least one decimal digit. (The underscore digit grouping
Python also accepts never occurs in this pipeline and is not modelled.) -/
def pyParseInt (s : String) : Option Int :=
  match (pyStrip s).toList with
  | [] => none
  | c :: rest =>
    if c = '-' then (parseDigits rest).map (fun n => -(n : Int))
    else if c = '+' then (parseDigits rest).map (fun n => (n : Int))
    else (parseDigits (c :: rest)).map (fun n => (n : Int))

/-- Character-list worker for `pyWords`. -/
def splitWsGo : List Char → List Char → List String
  | [], acc => if acc = [] then [] else [String.mk acc.reverse]
  | c :: cs, acc =>
    if c.isWhitespace then
      if acc = [] then splitWsGo cs []
      else String.mk acc.reverse :: splitWsGo cs []
    else splitWsGo cs (c :: acc)

/-- Words of a string as produced by Python `str.split()` with no argument:
maximal whitespace-free runs, with empty pieces dropped. -/
def pyWords (s : String) : List String := splitWsGo s.toList []

/-- Stable insertion: `a` is placed before the first `b` with `le a b`. -/
def insertBy (le : α → α → Bool) (a : α) : List α → List α
  | [] => [a]
  | b :: bs => if le a b then a :: b :: bs else b :: insertBy le a bs

/-- Stable sort by repeated insertion; with a total `le` this produces the
same order as Python's stable sorts for the comparators used below. -/
def sortBy (le : α → α → Bool) (l : List α) : List α :=
  l.foldr (insertBy le) []

/-- Code-point lexicographic comparison of character lists, the order Python
uses when comparing strings. -/
def charsLt : List Char → List Char → Bool
  | [], [] => false
  | [], _ :: _ => true
  | _ :: _, [] => false
  | a :: as, b :: bs =>
    if a.toNat < b.toNat then true
    else if b.toNat < a.toNat then false
    else charsLt as bs

/-- Python string comparison `a < b` by code points. -/
def pyStrLt (a b : String) : Bool := charsLt a.toList b.toList

/-- Character-list worker for `clean_html_tags`. The `first` regex argument
of the code is the non-greedy pattern matching a `<`, then a shortest run of
non-newline characters, then a `>`; the pending buffer holds the characters
consumed since an opening `<` (in reverse) until the match succeeds or is
abandoned at a newline or at the end of the input. -/
def cleanTagsGo : Option (List Char) → List Char → List Char
  | none, [] => []
  | some buf, [] => buf.reverse
  | none, c :: cs =>
    if c = '<' then cleanTagsGo (some [c]) cs
    else c :: cleanTagsGo none cs
  | some buf, c :: cs =>
    if c = '>' then cleanTagsGo none cs
    else if c = '\n' then buf.reverse ++ (c :: cleanTagsGo none cs)
    else cleanTagsGo (some (c :: buf)) cs

/-- Embedding of `NaverShoppingClient._clean_html_tags`: removes every
non-greedy `<`...`>` tag from the text. -/
def clean_html_tags (text : String) : String :=
  String.mk (cleanTagsGo none text.toList)

/-- Character-list worker for the tag-stripping step of signature creation,
whose regex requires at least one character between `<` and `>` (so a bare
`<>` is kept) and does not exclude newlines inside a tag. -/
def cleanTagsPlusGo : Option (List Char) → List Char → List Char
  | none, [] => []
  | some buf, [] => buf.reverse
  | none, c :: cs =>
    if c = '<' then cleanTagsPlusGo (some [c]) cs
    else c :: cleanTagsPlusGo none cs
  | some buf, c :: cs =>
    if c = '>' then
      if buf.length = 1 then buf.reverse ++ (c :: cleanTagsPlusGo none cs)
      else cleanTagsPlusGo none cs
    else cleanTagsPlusGo (some (c :: buf)) cs

/-- Approximation of the regex class `\w` (together with the redundant
`가-힣` the code adds next to it) restricted to the character ranges that
occur in this codebase: ASCII alphanumerics, underscore, and Hangul
syllables U+AC00 to U+D7A3. -/
def isWordChar (c : Char) : Bool :=
  c.isAlphanum || c = '_' || (0xAC00 ≤ c.toNat && c.toNat ≤ 0xD7A3)

/-- Approximation of Python `str.isalpha` for single characters on the
alphabets this codebase uses: ASCII letters and Hangul syllables. -/
def pyIsAlpha (c : Char) : Bool :=
  c.isAlpha || (0xAC00 ≤ c.toNat && c.toNat ≤ 0xD7A3)

/-- Groups reversed decimal digits in threes, worker for `int_comma`. -/
def commaRev : List Char → Nat → List Char
  | [], _ => []
  | [c], _ => [c]
  | c :: cs, k => if k = 3 then c :: ',' :: commaRev cs 1 else c :: commaRev cs (k + 1)

/-- Model of the Python format specifier `{:,}` for integers: thousands
groups separated by commas. -/
def int_comma (n : Int) : String :=
  let ds := (toString n.natAbs).toList.reverse
  (if n < 0 then "-" else "") ++ String.mk ((commaRev ds 1).reverse)

/-- First `n` characters of a string, modelling the Python slice `s[:n]`. -/
def strTake (s : String) (n : Nat) : String := String.mk (s.toList.take n)

/-! ### Data model: catalog products and raw search records -/

/-- Field-for-field embedding of the `NaverProductResult` dataclass. -/
structure NaverProductResult where
  title : String
  link : String
  image : String
  lprice : Int
  hprice : Int
  mallName : String
  productId : String
  productType : Int
  brand : String
  maker : String
  category1 : String
  category2 : String
  category3 : String
  category4 : String
  ai_recommendation_index : Option Nat := none
  search_method : Option String := none
  quality_score : Option ℚ := none
  deriving DecidableEq

/-- One raw record of the commerce search response, holding the string
fields the code reads from the JSON item with `item.get`; a field that is
absent from the response is modelled by its `get` default. -/
structure RawSearchItem where
  title : String := ""
  link : String := ""
  image : String := ""
  lprice : String := "0"
  hprice : String := ""
  mallName : String := ""
  productId : String := ""
  productType : String := "1"
  brand : String := ""
  maker : String := ""
  category1 : String := ""
  category2 : String := ""
  category3 : String := ""
  category4 : String := ""
  deriving DecidableEq

/-! ### Retrieval client -/

/-- Deny-list of `NaverShoppingClient._is_low_quality_product`. -/
def exclude_keywords : List String :=
  ["견적서", "견적", "문의", "상담", "주문제작", "맞춤제작", "커스텀",
   "배송비", "추가비", "도선료", "제주", "택배비", "결제상품",
   "참고용", "샘플", "테스트", "더미", "예시"]

/-- Embedding of `NaverShoppingClient._is_low_quality_product`. -/
def is_low_quality_product (title : String) : Bool :=
  let titleLower := pyLower title
  if exclude_keywords.any (fun k => strContains titleLower k) then true
  else if (pyStrip title).length < 5 then true
  else if strContains title "고객센터" || strContains title "문의바랍니다" then true
  else false

/-- The `hprice` defaulting of `_process_search_results`: an empty field, or
one that fails to parse, falls back to the low price. -/
def parse_hprice (hpriceStr : String) (lprice : Int) : Int :=
  if hpriceStr ≠ "" then (pyParseInt hpriceStr).getD lprice else lprice

/-- The `productType` clamping of `_process_search_results`: a malformed
code falls back to the default 1. -/
def parse_product_type (s : String) : Int := (pyParseInt s).getD 1

/-- Embedding of the per-record body of
`NaverShoppingClient._process_search_results`: defensive price parsing, the
budget filter with lower bound `max(10000, budget_max_krw // 3)`, the
quality deny-list, and the defaulting of `hprice` and `productType`; a
rejected record yields `none` (the record is dropped, not the pipeline). -/
def process_search_item (budget_max_krw : Int) (item : RawSearchItem) :
    Option NaverProductResult :=
  if item.lprice = "" then none
  else
    match pyParseInt item.lprice with
    | none => none
    | some lprice =>
      if lprice < max 10000 (budget_max_krw.fdiv 3) ∨ budget_max_krw < lprice then none
      else
        let title := clean_html_tags item.title
        if is_low_quality_product title then none
        else
          let hprice := parse_hprice item.hprice lprice
          let productType := parse_product_type item.productType
          some { title := title
                 link := item.link
                 image := item.image
                 lprice := lprice
                 hprice := hprice
                 mallName := item.mallName
                 productId := item.productId
                 productType := productType
                 brand := item.brand
                 maker := item.maker
                 category1 := item.category1
                 category2 := item.category2
                 category3 := item.category3
                 category4 := item.category4 }

/-- Embedding of `NaverShoppingClient._process_search_results` over the
item list of a successful response. -/
def process_search_results (items : List RawSearchItem) (budget_max_krw : Int) :
    List NaverProductResult :=
  items.filterMap (process_search_item budget_max_krw)

/-- Embedding of `NaverShoppingClient._simulate_search`, the deterministic
local fallback generator: up to five synthesized products whose prices are
spread as `budget_max_krw * (i+1) // (display+1)`. -/
def simulate_search (keywords : List String) (budget_max_krw : Int)
    (display : Nat) : List NaverProductResult :=
  let keyword := keywords.headD "선물"
  (List.range (min display 5)).map (fun (i : Nat) =>
    let price := (budget_max_krw * ((i : Int) + 1)).fdiv ((display : Int) + 1)
    { title := keyword ++ " 추천 상품 #" ++ toString (i + 1)
      link := "https://shopping.naver.com/product/" ++ toString (1000 + i)
      image := "https://source.unsplash.com/400x400/?" ++ keyword ++ ",product"
      lprice := price
      hprice := price + 10000
      mallName := "쇼핑몰" ++ toString (i + 1)
      productId := "prod_" ++ toString (1000 + i)
      productType := 1
      brand := "브랜드" ++ toString (i + 1)
      maker := "제조사" ++ toString (i + 1)
      category1 := "생활/건강"
      category2 := "생활용품"
      category3 := keyword
      category4 := "" })

/-- Outcome of the one outbound HTTP call made by `search_products`. -/
inductive HttpOutcome where
  | httpOk (items : List RawSearchItem)
  | httpError (status : Nat)
  | transportFailure
  deriving DecidableEq

/-- Embedding of `NaverShoppingClient.search_products`: a disabled client
simulates immediately; a 200 response is processed and budget-filtered; any
other status, and any raised exception, falls back to the simulated
generator. -/
def search_products (enabled : Bool) (keywords : List String)
    (budget_max_krw : Int) (display : Nat) (http : HttpOutcome) :
    List NaverProductResult :=
  if ¬enabled then simulate_search keywords budget_max_krw display
  else
    match http with
    | .httpOk items => process_search_results items budget_max_krw
    | .httpError _ => simulate_search keywords budget_max_krw display
    | .transportFailure => simulate_search keywords budget_max_krw display

/-- Embedding of the response-level provenance flag: both
`generate_naver_recommendations` (`simulation_mode=not self.naver_enabled`)
and its metrics (`cache_simulation=not self.naver_enabled`) derive the flag
from whether API credentials are configured, never from whether an
individual call fell back. -/
def response_simulation_mode (naver_enabled : Bool) : Bool := !naver_enabled

/-! ### Deduplication, product signatures, diversity cap -/

/-- Stop-word set removed during signature generation. -/
def signature_stop_words : List String :=
  ["정품", "공식", "무료배송", "당일배송", "특가", "할인", "세일", "sale",
   "추천", "인기", "베스트", "신상", "최신", "한정", "스페셜",
   "블랙", "화이트", "레드", "블루", "그린", "옐로우", "핑크", "그레이",
   "대형", "중형", "소형", "미니", "라지", "xs", "s", "m", "l", "xl", "xxl",
   "개", "구", "매", "입", "장", "개월", "년", "일", "시간"]

/-- Embedding of `NaverShoppingClient._create_product_signature`: lowercase,
strip markup, replace characters outside word or Hangul classes by spaces,
keep the words of length at least three that are not stop words, take the
first five, sort them, join with underscores, and prefix the normalised
brand token when a brand is present. -/
def create_product_signature (product : NaverProductResult) : String :=
  let title := pyLower product.title
  let titleClean := String.mk (cleanTagsPlusGo none title.toList)
  let titleClean2 := String.mk (titleClean.toList.map
    (fun c => if isWordChar c || c.isWhitespace then c else ' '))
  let words := pyWords titleClean2
  let coreWords := words.filter
    (fun w => 3 ≤ w.length && !(signature_stop_words.contains w))
  let signatureWords := sortBy (fun a b => !(pyStrLt b a)) (coreWords.take 5)
  let signature := String.intercalate "_" signatureWords
  if product.brand ≠ "" ∧ 0 < (pyStrip product.brand).length then
    let brandClean := String.mk (((pyLower product.brand).toList).filter
      (fun c => isWordChar c))
    brandClean ++ "_" ++ signature
  else signature

/-- Diversity key of the cap in `search_products_multi_sort`: brand joined
with the leaf category. -/
def brand_category_key (p : NaverProductResult) : String :=
  p.brand ++ "_" ++ p.category3

/-- The deduplication loop of `search_products_multi_sort`: drop a product
whose `productId` was already accepted, then one whose signature was already
accepted, then one whose brand-and-leaf-category pair already has three
accepted products; otherwise accept it and record its id and signature. -/
def dedup_products_go : List NaverProductResult → List NaverProductResult →
    List String → List String → List NaverProductResult
  | [], acc, _, _ => acc
  | p :: rest, acc, seenIds, seenSigs =>
    if p.productId ∈ seenIds then dedup_products_go rest acc seenIds seenSigs
    else
      let sig := create_product_signature p
      if sig ∈ seenSigs then dedup_products_go rest acc seenIds seenSigs
      else if 3 ≤ acc.countP (fun q => brand_category_key q == brand_category_key p) then
        dedup_products_go rest acc seenIds seenSigs
      else dedup_products_go rest (acc ++ [p]) (seenIds ++ [p.productId]) (seenSigs ++ [sig])

/-- Deduplication of one merged multi-sort pool, from empty seen-sets. -/
def dedup_products (products : List NaverProductResult) : List NaverProductResult :=
  dedup_products_go products [] [] []

/-! ### Quality scorer -/

/-- Curated premium brand list (tier 1.0). -/
def premium_brands : List String :=
  ["삼성", "samsung", "lg", "애플", "apple", "소니", "sony", "필립스", "philips",
   "다이슨", "dyson", "보세", "bose", "하만카돈", "harman kardon", "마셜", "marshall",
   "나이키", "nike", "아디다스", "adidas", "유니클로", "uniqlo", "코치", "coach",
   "랄프로렌", "ralph lauren", "휴고보스", "hugo boss", "캘빈클라인", "calvin klein",
   "아모레퍼시픽", "설화수", "헤라", "hera", "랑콤", "lancome", "에스티로더", "estee lauder",
   "쿠진아트", "cuisinart", "브라운", "braun", "테팔", "tefal", "피스카르스", "fiskars"]

/-- Trusted brand list (tier 0.8). -/
def trusted_brands : List String :=
  ["코웨이", "coway", "위닉스", "winix", "청호나이스", "sk매직", "대웅제약", "동화약품",
   "아시아나", "대한항공", "현대", "hyundai", "기아", "kia", "롯데", "lotte", "신세계"]

/-- Recognized brand list (tier 0.6). -/
def known_brands : List String :=
  ["무인양품", "muji", "이케아", "ikea", "다이소", "올리브영", "gs25", "세븐일레븐",
   "미니스톱", "cu", "스타벅스", "starbucks", "맥도날드", "mcdonalds", "kfc"]

/-- Embedding of `_calculate_brand_trust_score`: tiered substring lookup,
0.5 for any other alphabetic brand string, 0.3 otherwise. -/
def calculate_brand_trust_score (brand : String) : ℚ :=
  if brand = "" ∨ pyStrip brand = "" then 3/10
  else
    let brandLower := pyStrip (pyLower brand)
    if premium_brands.any (fun b => strContains brandLower b) then 1
    else if trusted_brands.any (fun b => strContains brandLower b) then 8/10
    else if known_brands.any (fun b => strContains brandLower b) then 6/10
    else if brand.toList.any pyIsAlpha then 1/2
    else 3/10

/-- Premium marketplace list (tier 1.0). -/
def premium_malls : List String :=
  ["네이버쇼핑", "naver", "쿠팡", "coupang", "11번가", "11st", "gmarket", "지마켓",
   "옥션", "auction", "인터파크", "interpark", "롯데온", "lotteon", "하이마트", "himart",
   "이마트", "emart", "홈플러스", "homeplus", "코스트코", "costco"]

/-- Trusted marketplace list (tier 0.8). -/
def trusted_malls : List String :=
  ["올리브영", "oliveyoung", "gs shop", "cj온스타일", "ns홈쇼핑", "현대홈쇼핑",
   "롯데홈쇼핑", "아이허브", "iherb", "무신사", "musinsa", "29cm", "브랜디", "brandi"]

/-- Recognized marketplace list (tier 0.6). -/
def known_malls : List String :=
  ["티몬", "tmon", "위메프", "wemakeprice", "스타일쉐어", "stylenanda", "코코", "coco",
   "도매킹", "마켓비", "marketb", "공영쇼핑", "디앤샵", "dnshop", "에이블리", "ably"]

/-- Embedding of `_calculate_mall_trust_score`. -/
def calculate_mall_trust_score (mall_name : String) : ℚ :=
  if mall_name = "" ∨ pyStrip mall_name = "" then 3/10
  else
    let mallLower := pyStrip (pyLower mall_name)
    if premium_malls.any (fun m => strContains mallLower m) then 1
    else if trusted_malls.any (fun m => strContains mallLower m) then 8/10
    else if known_malls.any (fun m => strContains mallLower m) then 6/10
    else 4/10

/-- Positive title markers with their boosts. -/
def positive_indicators : List (String × ℚ) :=
  [("정품", 2/10), ("공식", 15/100), ("무료배송", 1/10), ("당일배송", 1/10),
   ("리뷰", 5/100), ("평점", 5/100), ("베스트", 1/10), ("인기", 1/10),
   ("프리미엄", 5/100), ("고급", 5/100), ("브랜드", 5/100)]

/-- Negative title markers with their penalties. -/
def negative_indicators : List (String × ℚ) :=
  [("중고", -(3/10)), ("리퍼", -(2/10)), ("파손", -(4/10)), ("불량", -(4/10)),
   ("반품", -(2/10)), ("교환불가", -(2/10)), ("AS불가", -(2/10)), ("미개봉", -(1/10)),
   ("견적", -(3/10)), ("문의", -(2/10)), ("상담", -(2/10)), ("주문제작", -(1/10))]

/-- Embedding of `_calculate_title_quality_score`: base 0.5, bounded boosts
and penalties, length adjustment, clamped into the unit interval. -/
def calculate_title_quality_score (title : String) : ℚ :=
  if title = "" ∨ (pyStrip title).length < 5 then 1/10
  else
    let titleClean := pyStrip title
    let s1 := positive_indicators.foldl
      (fun s pi => if strContains titleClean pi.1 then s + pi.2 else s) (1/2)
    let s2 := negative_indicators.foldl
      (fun s ni => if strContains titleClean ni.1 then s + ni.2 else s) s1
    let len := titleClean.length
    let s3 :=
      if len < 10 then s2 - 2/10
      else if len > 100 then s2 - 1/10
      else if 20 ≤ len ∧ len ≤ 60 then s2 + 1/10
      else s2
    min 1 (max 0 s3)

/-- Embedding of `_calculate_price_reasonableness_score` (the `elif` chain
is mirrored branch for branch, so each bracket boundary lands exactly where
Python's chain puts it). -/
def calculate_price_reasonableness_score (product : NaverProductResult) : ℚ :=
  if product.lprice ≤ 0 then 0
  else
    let price := product.lprice
    if price < 5000 then 3/10
    else if price ≤ 10000 then 6/10
    else if price ≤ 100000 then 8/10
    else if price ≤ 500000 then 9/10
    else if price ≤ 1000000 then 7/10
    else 1/2

/-- Embedding of `calculate_product_quality_score`: the 0.4/0.3/0.2/0.1
weighted sum, clamped into [0, 1]. -/
def calculate_product_quality_score (product : NaverProductResult) : ℚ :=
  let score := calculate_brand_trust_score product.brand * (4/10)
    + calculate_mall_trust_score product.mallName * (3/10)
    + calculate_title_quality_score product.title * (2/10)
    + calculate_price_reasonableness_score product * (1/10)
  min 1 (max 0 score)

/-! ### Multi-sort search pipeline -/

/-- Tags a product with the sort method that retrieved it, as the merge loop
of `search_products_multi_sort` does. -/
def set_search_method (m : String) (p : NaverProductResult) : NaverProductResult :=
  { p with search_method := some m }

/-- The merged candidate pool of one multi-sort search, in accumulation
order: relevance (`sim`) results first, then price ascending, then price
descending. -/
def merge_multi_sort (simResults ascResults dscResults : List NaverProductResult) :
    List NaverProductResult :=
  simResults.map (set_search_method "sim") ++ ascResults.map (set_search_method "asc")
    ++ dscResults.map (set_search_method "dsc")

/-- Quality scoring step of `search_products_multi_sort`: the clamped
quality score, then the fixed 0.1 bonus for `sim`-retrieved items added
after the clamp. -/
def apply_quality_score (p : NaverProductResult) : NaverProductResult :=
  let q := calculate_product_quality_score p
  let q2 := if p.search_method == some "sim" then q + 1/10 else q
  { p with quality_score := some q2 }

/-- Descending stable sort by quality score, modelling
`sort(key=..., reverse=True)`. -/
def sort_by_quality (ps : List NaverProductResult) : List NaverProductResult :=
  sortBy (fun a b => decide ((b.quality_score.getD 0) ≤ (a.quality_score.getD 0))) ps

/-- Embedding of `search_products_multi_sort` downstream of the three
per-sort searches: merge the three result sets, deduplicate with the
diversity cap, attach quality scores with the sim bonus, and sort by
descending quality. -/
def search_products_multi_sort (simResults ascResults dscResults : List NaverProductResult) :
    List NaverProductResult :=
  sort_by_quality ((dedup_products
    (merge_multi_sort simResults ascResults dscResults)).map apply_quality_score)

/-! ### Recommendations, request, matcher -/

/-- Embedding of the `GiftRecommendation` response model (the last field
carries `naver_product_info` when the enhanced engine attaches it). -/
structure GiftRecommendation where
  title : String
  description : String
  category : String
  estimated_price : Int
  currency : String
  price_display : String
  reasoning : String
  purchase_link : Option String := none
  image_url : Option String := none
  confidence_score : ℚ
  naver_product_info : Option (String × String × String × String × ℚ) := none
  deriving DecidableEq

/-- The request fields this part of the pipeline reads. -/
structure GiftRequest where
  budget_max : Int
  currency : String
  occasion : String
  relationship : String
  interests : List String
  deriving DecidableEq

/-- Embedding of `_calculate_relevance_score`: the fraction of the distinct
lower-cased words of the intent title that also occur among the words of the
product title. -/
def calculate_relevance_score (ai_title product_title : String) : ℚ :=
  if ai_title = "" ∨ product_title = "" then 0
  else
    let aiKeywords := (pyWords (pyLower ai_title)).dedup
    let productKeywords := (pyWords (pyLower product_title)).dedup
    let common := aiKeywords.filter (fun w => productKeywords.contains w)
    if aiKeywords = [] then 0
    else (common.length : ℚ) / (aiKeywords.length : ℚ)

/-- Per-candidate score of `_select_best_matching_product`: 0.3 times the
proximity of the price to half the budget plus 0.7 times lexical relevance.
(When the budget is below 2 the target is 0 and Python would raise
ZeroDivisionError; in ℚ the division by zero yields 0 instead.) -/
def candidate_score (budget_max_krw : Int) (ai_title : String)
    (p : NaverProductResult) : ℚ :=
  let target := budget_max_krw.fdiv 2
  let priceScore := max 0 (1 - |((p.lprice - target : Int) : ℚ)| / ((target : Int) : ℚ)) * (3/10)
  priceScore + calculate_relevance_score ai_title p.title * (7/10)

/-- The strict-improvement scan of `_select_best_matching_product`: the
running pair is replaced only when a candidate scores strictly higher, so
the first of equally scored candidates is kept. -/
def pick_best (score : NaverProductResult → ℚ) :
    List NaverProductResult → Option NaverProductResult × ℚ →
    Option NaverProductResult × ℚ
  | [], st => st
  | p :: ps, st => pick_best score ps (if st.2 < score p then (some p, score p) else st)

/-- The candidate pool `_select_best_matching_product` actually scores: the
candidates within the budget, or all candidates when none is within it. -/
def budget_pool (products : List NaverProductResult) (budget_max_krw : Int) :
    List NaverProductResult :=
  let bp := products.filter (fun p => p.lprice ≤ budget_max_krw)
  if bp.isEmpty then products else bp

/-- Embedding of `_select_best_matching_product`: restrict to candidates
within the budget when any exist, short-circuit a single candidate, else
scan for the maximal score. (With an empty candidate list the Python code
would raise IndexError; the model returns `none`, and every call site passes
a non-empty list.) -/
def select_best_matching_product (products : List NaverProductResult)
    (budget_max_krw : Int) (ai_title : String) : Option NaverProductResult :=
  let pool := budget_pool products budget_max_krw
  if pool.length = 1 then pool.head?
  else
    match (pick_best (candidate_score budget_max_krw ai_title) pool (none, -1)).1 with
    | some p => some p
    | none => pool.head?

/-- Embedding of the response handling of `_gpt_validate_and_select_product`.
The first argument is the judge call's outcome: `none` models a missing API
key or a raised exception (both of which the code answers with the heuristic
matcher), and `some result` is the judge's reply string. A reply whose
upper-casing is NONE yields no binding; a reply parsing to an index inside
the candidate list binds that candidate; any other reply falls back to the
heuristic matcher. -/
def gpt_validate_and_select_product (judgeReply : Option String)
    (naver_products : List NaverProductResult) (budget_max_krw : Int)
    (ai_title : String) : Option NaverProductResult :=
  match judgeReply with
  | none => select_best_matching_product naver_products budget_max_krw ai_title
  | some result =>
    if pyUpper result = "NONE" then none
    else
      match pyParseInt result with
      | some k =>
        if h : 0 ≤ k ∧ k < (naver_products.length : Int) then
          some (naver_products.get ⟨k.toNat, by omega⟩)
        else select_best_matching_product naver_products budget_max_krw ai_title
      | none => select_best_matching_product naver_products budget_max_krw ai_title

/-- Descriptor list of `_merge_ai_intent_with_product`. -/
def title_descriptors : List String :=
  ["프리미엄", "고급", "스마트", "무선", "휴대용", "전문가용", "초보자용", "독서용",
   "운동용", "커피", "차", "여행용"]

/-- Embedding of `_merge_ai_intent_with_product`: the intent title's
descriptor words joined with a bullet, followed by the first three words of
the product title. -/
def merge_ai_intent_with_product (ai_title product_title : String) : String :=
  let aiDescriptors := (pyWords ai_title).filter
    (fun w => title_descriptors.any (fun d => strContains w d))
  let productCore := String.intercalate " " ((pyWords product_title).take 3)
  if aiDescriptors ≠ [] then String.intercalate "•" aiDescriptors ++ " " ++ productCore
  else productCore

/-- Embedding of `_create_enhanced_recommendation_with_product`: the bound
product supplies price, currency, purchase link and image; the description
and reasoning are extended, and the confidence is raised by 0.2 capped at 1. -/
def create_enhanced_recommendation_with_product (ai_rec : GiftRecommendation)
    (product : NaverProductResult) : GiftRecommendation :=
  let productTitleClean := clean_html_tags product.title
  { title := merge_ai_intent_with_product ai_rec.title productTitleClean
    description := ai_rec.description ++ "\n\n🛍️ 실제 상품: " ++ productTitleClean
      ++ "\n💰 가격: ₩" ++ int_comma product.lprice ++ " (" ++ product.mallName ++ ")"
      ++ "\n🏷️ 브랜드: " ++ (if product.brand ≠ "" then product.brand else "기타")
    category := ai_rec.category
    estimated_price := product.lprice
    currency := "KRW"
    price_display := "₩" ++ int_comma product.lprice
    reasoning := ai_rec.reasoning
      ++ "\n\n🤖 GPT 검증 완료: AI 추천과 실제 상품의 연관성을 분석하여 가장 적합한 제품을 선별했습니다.\n✅ 네이버쇼핑에서 정확히 매칭된 실제 구매 가능한 상품입니다."
    purchase_link := some product.link
    image_url := some product.image
    confidence_score := min (ai_rec.confidence_score + 2/10) 1 }

/-- Embedding of `_convert_ai_rec_to_krw`: a non-KRW recommendation has its
price converted (or defaulted to half the budget when the price is falsy);
everything else, the purchase link included, is left unchanged. -/
def convert_ai_rec_to_krw (ai_rec : GiftRecommendation) (budget_max_krw : Int) :
    GiftRecommendation :=
  if ai_rec.currency ≠ "KRW" then
    let price := if ai_rec.estimated_price ≠ 0 then ai_rec.estimated_price * 1300
                 else budget_max_krw.fdiv 2
    { ai_rec with
      estimated_price := price
      currency := "KRW"
      price_display := "₩" ++ int_comma price }
  else ai_rec

/-- Embedding of `_create_recommendations_from_products` (only reached when
no AI recommendations exist), with its running index. -/
def create_recommendations_from_products_go (request : GiftRequest) :
    Nat → List NaverProductResult → List GiftRecommendation
  | _, [] => []
  | i, p :: ps =>
    { title := "추천 상품 #" ++ toString (i + 1) ++ ": " ++ strTake p.title 30 ++ "..."
      description := "네이버쇼핑에서 찾은 '" ++ request.occasion ++ "' 선물 추천 상품입니다."
      category := if p.category3 ≠ "" then p.category3 else "일반 상품"
      estimated_price := p.lprice
      currency := "KRW"
      price_display := "₩" ++ int_comma p.lprice
      reasoning := "사용자의 관심사 '" ++ String.intercalate ", " (request.interests.take 2)
        ++ "'에 적합한 상품입니다."
      purchase_link := some p.link
      image_url := some p.image
      confidence_score := 7/10 + (i : ℚ) * (5/100) }
      :: create_recommendations_from_products_go request (i + 1) ps

/-- Embedding of `_create_recommendations_from_products` on the first three
products. -/
def create_recommendations_from_products (products : List NaverProductResult)
    (request : GiftRequest) : List GiftRecommendation :=
  create_recommendations_from_products_go request 0 (products.take 3)

/-- The matching loop of `_smart_integrate_recommendations` over the
enumerated AI recommendations, threading the session-scoped consumed-id set:
candidates are the products tagged to this recommendation's search that are
not yet consumed; when there are none, the fallback pool admits any
unconsumed product with price at most 1.5 times the budget (first three);
a validated binding consumes the product's id. -/
def smart_integrate_go (budget_max_krw : Int) (judge : Nat → Option String)
    (naver_products : List NaverProductResult) :
    Nat → List GiftRecommendation → List String → List GiftRecommendation
  | _, [], _ => []
  | i, ai_rec :: rest, used =>
    let relevant := naver_products.filter
      (fun p => p.ai_recommendation_index == some i && decide (p.productId ∉ used))
    let candidates :=
      if relevant.isEmpty then
        (naver_products.filter
          (fun p => decide (2 * p.lprice ≤ 3 * budget_max_krw)
            && decide (p.productId ∉ used))).take 3
      else relevant
    if candidates.isEmpty then
      convert_ai_rec_to_krw ai_rec budget_max_krw
        :: smart_integrate_go budget_max_krw judge naver_products (i + 1) rest used
    else
      match gpt_validate_and_select_product (judge i) candidates budget_max_krw ai_rec.title with
      | some p =>
        create_enhanced_recommendation_with_product ai_rec p
          :: smart_integrate_go budget_max_krw judge naver_products (i + 1) rest
              (used ++ [p.productId])
      | none =>
        convert_ai_rec_to_krw ai_rec budget_max_krw
          :: smart_integrate_go budget_max_krw judge naver_products (i + 1) rest used

/-- Embedding of `_smart_integrate_recommendations`: budget normalisation to
KRW, the product-only fallback when no AI recommendations exist, and the
matching loop over the first three AI recommendations with the consumed-id
set starting empty. The judge argument gives, per recommendation index, the
outcome of the GPT validation call. -/
def smart_integrate_recommendations (ai_recommendations : List GiftRecommendation)
    (naver_products : List NaverProductResult) (request : GiftRequest)
    (judge : Nat → Option String) : List GiftRecommendation :=
  if ai_recommendations.isEmpty then
    create_recommendations_from_products (naver_products.take 3) request
  else
    let budget_max_krw := if request.currency = "USD" then request.budget_max * 1300
                          else request.budget_max
    smart_integrate_go budget_max_krw judge naver_products 0
      (ai_recommendations.take 3) []

/-! ### Refinement controller -/

/-- Result of one call of the injected search function inside the refinement
loop: either a product list or a raised exception (caught per attempt). -/
inductive SearchOutcome where
  | ok (products : List NaverProductResult)
  | error

/-- The five ordered refinement strategies. -/
def refinement_strategies : List String :=
  ["synonym_expansion", "category_broadening", "market_research",
   "demographic_adaptation", "budget_alternative"]

/-- Embedding of the MAX_RETRY_ATTEMPTS constant. -/
def MAX_RETRY_ATTEMPTS : Nat := 5

/-- Embedding of the MIN_PRODUCTS_THRESHOLD constant. -/
def MIN_PRODUCTS_THRESHOLD : Nat := 3

/-- Strategy bound to a given 1-based attempt number. -/
def strategy_for (attempt_num : Nat) : String :=
  refinement_strategies.getD (min (attempt_num - 1) (refinement_strategies.length - 1)) ""

/-- Embedding of `QueryRefinementAttempt` (the fields the claims concern). -/
structure QueryRefinementAttempt where
  attempt_number : Nat
  products_found : Nat
  success : Bool
  refinement_strategy : String
  deriving DecidableEq

/-- Embedding of `QueryRefinementSession` (the fields the claims concern). -/
structure QueryRefinementSession where
  attempts : List QueryRefinementAttempt
  final_success : Bool
  best_attempt : Option QueryRefinementAttempt
  total_products_found : Nat
  deriving DecidableEq

/-- The retry loop of `refine_search_with_retries`. The search argument
gives, for each attempt number, the outcome of that attempt's search call
(keyword refinement is a function of the attempt number and the previous
attempts, so the outcome is indexed by the attempt number); the fuel counts
the remaining attempts. An exception makes a zero-product failed attempt and
the loop continues; a result meeting the threshold ends the loop at once;
otherwise a strictly larger product count replaces the best attempt. -/
def refine_go (search : Nat → SearchOutcome) :
    Nat → Nat → List NaverProductResult → Option QueryRefinementAttempt →
    List QueryRefinementAttempt →
    List NaverProductResult × Bool × Option QueryRefinementAttempt ×
      List QueryRefinementAttempt
  | 0, _, best, bestA, acc => (best, false, bestA, acc)
  | fuel + 1, n, best, bestA, acc =>
    match search n with
    | .error =>
      let a : QueryRefinementAttempt := ⟨n, 0, false, strategy_for n⟩
      refine_go search fuel (n + 1) best bestA (acc ++ [a])
    | .ok ps =>
      let c := ps.length
      let a : QueryRefinementAttempt :=
        ⟨n, c, decide (MIN_PRODUCTS_THRESHOLD ≤ c), strategy_for n⟩
      if MIN_PRODUCTS_THRESHOLD ≤ c then (ps, true, some a, acc ++ [a])
      else if best.length < c then refine_go search fuel (n + 1) ps (some a) (acc ++ [a])
      else refine_go search fuel (n + 1) best bestA (acc ++ [a])

/-- Embedding of `refine_search_with_retries`: five attempts starting at
attempt number one, early exit at the first attempt meeting the minimum
product threshold, otherwise the best partial attempt is returned. -/
def refine_search_with_retries (search : Nat → SearchOutcome) :
    List NaverProductResult × QueryRefinementSession :=
  let r := refine_go search MAX_RETRY_ATTEMPTS 1 [] none []
  (r.1, ⟨r.2.2.2, r.2.1, r.2.2.1, r.1.length⟩)

/-- Largest product count over a list of attempts. -/
def max_products_found (attempts : List QueryRefinementAttempt) : Nat :=
  attempts.foldr (fun a m => max a.products_found m) 0

/-! ### Enhanced engine around the refinement loop -/

/-- Embedding of the positional pairing step of
`_integrate_ai_and_naver_results`. -/
def integrate_pair (ai_rec : GiftRecommendation) (p : NaverProductResult) :
    GiftRecommendation :=
  { title := if p.title ≠ "" then p.title else ai_rec.title
    description := ai_rec.description
    category := ai_rec.category
    estimated_price := if p.lprice ≠ 0 then p.lprice.fdiv 1300 else ai_rec.estimated_price
    currency := "USD"
    price_display := if p.lprice ≠ 0 then "$" ++ toString (p.lprice.fdiv 1300)
                     else ai_rec.price_display
    reasoning := ai_rec.reasoning
    purchase_link := if p.link ≠ "" then some p.link else none
    image_url := if p.image ≠ "" then some p.image else none
    confidence_score := min (ai_rec.confidence_score + 1/10) 1
    naver_product_info := some (p.productId, p.mallName, p.brand, p.maker,
      p.quality_score.getD (8/10)) }

/-- Embedding of the additional-product step of
`_integrate_ai_and_naver_results`. -/
def integrate_extra (request : GiftRequest) (p : NaverProductResult) :
    GiftRecommendation :=
  { title := p.title
    description := "네이버 쇼핑에서 발견한 인기 상품입니다. " ++ request.relationship
      ++ "에게 드리기 좋은 실용적인 선물입니다."
    category := if p.category1 ≠ "" then p.category1 else "일반상품"
    estimated_price := if p.lprice ≠ 0 then p.lprice.fdiv 1300 else 50
    currency := "USD"
    price_display := if p.lprice ≠ 0 then "$" ++ toString (p.lprice.fdiv 1300) else "$50"
    reasoning := "시장에서 검증된 인기 상품으로 " ++ request.occasion ++ "에 적합한 선물입니다."
    purchase_link := some p.link
    image_url := some p.image
    confidence_score := 3/4
    naver_product_info := some (p.productId, p.mallName, p.brand, p.maker,
      p.quality_score.getD (8/10)) }

/-- Positional zip of AI recommendations with products; recommendations past
the end of the product list pass through unchanged. -/
def integrate_zip : List GiftRecommendation → List NaverProductResult →
    List GiftRecommendation
  | [], _ => []
  | r :: rs, [] => r :: integrate_zip rs []
  | r :: rs, p :: ps => integrate_pair r p :: integrate_zip rs ps

/-- Embedding of `_integrate_ai_and_naver_results`: pair by position, then
append the products with indices from the recommendation count up to five as
extra recommendations. -/
def integrate_ai_and_naver_results (ai_recommendations : List GiftRecommendation)
    (naver_products : List NaverProductResult) (request : GiftRequest) :
    List GiftRecommendation :=
  integrate_zip ai_recommendations naver_products
    ++ (((naver_products.take 5).drop ai_recommendations.length).map
      (integrate_extra request))

/-- The response fields of `generate_recommendations_with_retry` the claims
concern. -/
structure EnhancedRetryResponse where
  recommendations : List GiftRecommendation
  success : Bool
  fallback_mode : Bool
  naver_results_count : Nat

/-- Embedding of the search-and-integrate stage of
`generate_recommendations_with_retry`: run the refinement loop; with
products found, integrate them into the AI recommendations; with none,
return the AI recommendations unchanged in fallback mode — in both cases a
success response, not an error. -/
def generate_recommendations_with_retry (ai_recommendations : List GiftRecommendation)
    (request : GiftRequest) (search : Nat → SearchOutcome) : EnhancedRetryResponse :=
  let r := refine_search_with_retries search
  if r.1.isEmpty then ⟨ai_recommendations, true, true, 0⟩
  else ⟨integrate_ai_and_naver_results ai_recommendations r.1 request, true, false,
    r.1.length⟩

/-- Link-distinctness of two recommendations: when both carry purchase
links, the links differ. -/
def LinksDistinct (r1 r2 : GiftRecommendation) : Prop :=
  ∀ l1 l2, r1.purchase_link = some l1 → r2.purchase_link = some l2 → l1 ≠ l2

/-! ### Concrete instances used by witnesses and counterexamples -/

/-- A well-formed raw search record priced inside the budget window. -/
def c1_raw_item : RawSearchItem :=
  { title := "무선 이어폰 선물 세트"
    lprice := "50000"
    productId := "p1" }

/-- The product `process_search_results` builds from `c1_raw_item`. -/
def c1_product : NaverProductResult :=
  { title := "무선 이어폰 선물 세트"
    link := ""
    image := ""
    lprice := 50000
    hprice := 50000
    mallName := ""
    productId := "p1"
    productType := 1
    brand := ""
    maker := ""
    category1 := ""
    category2 := ""
    category3 := ""
    category4 := "" }

/-- The single product of `simulate_search ["선물"] 100000 1`. -/
def c1_sim_product : NaverProductResult :=
  { title := "선물 추천 상품 #1"
    link := "https://shopping.naver.com/product/1000"
    image := "https://source.unsplash.com/400x400/?선물,product"
    lprice := 50000
    hprice := 60000
    mallName := "쇼핑몰1"
    productId := "prod_1000"
    productType := 1
    brand := "브랜드1"
    maker := "제조사1"
    category1 := "생활/건강"
    category2 := "생활용품"
    category3 := "선물"
    category4 := "" }

/-- A search oracle whose every attempt returns an empty product list. -/
def c2_search : Nat → SearchOutcome := fun _ => .ok []

/-- The first attempt the refinement loop records against `c2_search`. -/
def c2_attempt : QueryRefinementAttempt := ⟨1, 0, false, "synonym_expansion"⟩

/-- Builder for the C3 counterexample products: same brand, varying title,
id and leaf category. -/
def c3_product (t id cat : String) : NaverProductResult :=
  { title := t
    link := ""
    image := ""
    lprice := 50000
    hprice := 50000
    mallName := ""
    productId := id
    productType := 1
    brand := "b"
    maker := ""
    category1 := ""
    category2 := ""
    category3 := cat
    category4 := "" }

/-- Merged pool in which the first occurrence of signature `b_ddd` (id x4)
is blocked by the brand-category diversity cap while its later duplicate
(id x5, different leaf category) is not. -/
def c3_pool : List NaverProductResult :=
  [c3_product "aaa" "x1" "c", c3_product "bbb" "x2" "c", c3_product "ccc" "x3" "c",
   c3_product "ddd" "x4" "c", c3_product "ddd" "x5" "z"]

/-- A premium-brand, premium-mall, marker-rich product whose clamped quality
score is 0.99 before the relevance-sort bonus. -/
def c4_product : NaverProductResult :=
  { title := "정품 공식 무료배송 삼성 프리미엄 기프트"
    link := ""
    image := ""
    lprice := 150000
    hprice := 150000
    mallName := "쿠팡"
    productId := "q1"
    productType := 1
    brand := "삼성"
    maker := ""
    category1 := ""
    category2 := ""
    category3 := ""
    category4 := "" }

/-- A search oracle for the C5 witness: every attempt raises. -/
def c5_search : Nat → SearchOutcome := fun _ => .error

/-- A minimal request value. -/
def c5_request : GiftRequest :=
  { budget_max := 100000
    currency := "KRW"
    occasion := "생일"
    relationship := "친구"
    interests := ["커피"] }

/-- A minimal AI recommendation with no purchase link. -/
def c5_airec : GiftRecommendation :=
  { title := "프리미엄 커피 메이커"
    description := "d"
    category := "전자제품"
    estimated_price := 50000
    currency := "KRW"
    price_display := "₩50,000"
    reasoning := "r"
    confidence_score := 4/5 }

/-- Five distinguishable candidate products for the judge-matching witness. -/
def c6_candidate (id : String) : NaverProductResult :=
  { title := "상품 " ++ id
    link := "https://example.com/" ++ id
    image := ""
    lprice := 50000
    hprice := 50000
    mallName := ""
    productId := id
    productType := 1
    brand := ""
    maker := ""
    category1 := ""
    category2 := ""
    category3 := ""
    category4 := "" }

/-- The five-candidate list of the judge-matching witness. -/
def c6_candidates : List NaverProductResult :=
  [c6_candidate "k0", c6_candidate "k1", c6_candidate "k2", c6_candidate "k3",
   c6_candidate "k4"]

/-- Two AI recommendations with no purchase links. -/
def c7_airec (t : String) : GiftRecommendation :=
  { title := t
    description := "d"
    category := "c"
    estimated_price := 50000
    currency := "KRW"
    price_display := "₩50,000"
    reasoning := "r"
    confidence_score := 1/2 }

/-- Two distinct catalog entries (different external ids) that carry the
same purchase link, each tagged to its own intent's search. -/
def c7_product (idx : Nat) (id : String) : NaverProductResult :=
  { title := "goods"
    link := "L"
    image := "img"
    lprice := 50000
    hprice := 50000
    mallName := "m"
    productId := id
    productType := 1
    brand := ""
    maker := ""
    category1 := ""
    category2 := ""
    category3 := ""
    category4 := ""
    ai_recommendation_index := some idx }

/-- The request of the matcher examples: 100000 KRW budget. -/
def c7_request : GiftRequest :=
  { budget_max := 100000
    currency := "KRW"
    occasion := "o"
    relationship := "rel"
    interests := ["i"] }

/-- An over-budget candidate whose title matches the intent exactly. -/
def c9_over_budget : NaverProductResult :=
  { title := "aaa bbb"
    link := "la"
    image := ""
    lprice := 200000
    hprice := 200000
    mallName := ""
    productId := "pa"
    productType := 1
    brand := ""
    maker := ""
    category1 := ""
    category2 := ""
    category3 := ""
    category4 := "" }

/-- An in-budget candidate at the target price with no lexical overlap. -/
def c9_in_budget : NaverProductResult :=
  { title := "zzz"
    link := "lb"
    image := ""
    lprice := 50000
    hprice := 50000
    mallName := ""
    productId := "pb"
    productType := 1
    brand := ""
    maker := ""
    category1 := ""
    category2 := ""
    category3 := ""
    category4 := "" }

/-- An unconsumed product not tagged to any intent, priced at 1.4 times the
budget (inside the 1.5-budget fallback window but above the budget). -/
def c10_product : NaverProductResult :=
  { title := "goods"
    link := "LZ"
    image := "img"
    lprice := 140000
    hprice := 140000
    mallName := "m"
    productId := "z"
    productType := 1
    brand := ""
    maker := ""
    category1 := ""
    category2 := ""
    category3 := ""
    category4 := "" }

/-- A raw search record crafted to process into exactly the product the
fallback generator synthesizes for `["선물"]`, budget 100000, display 1. -/
def c8_raw_item : RawSearchItem :=
  { title := "선물 추천 상품 #1"
    link := "https://shopping.naver.com/product/1000"
    image := "https://source.unsplash.com/400x400/?선물,product"
    lprice := "50000"
    hprice := "60000"
    mallName := "쇼핑몰1"
    productId := "prod_1000"
    productType := "1"
    brand := "브랜드1"
    maker := "제조사1"
    category1 := "생활/건강"
    category2 := "생활용품"
    category3 := "선물"
    category4 := "" }

/-! ## General lemmas -/

theorem process_search_item_price_bounds {budget : Int} {item : RawSearchItem}
    {p : NaverProductResult} (h : process_search_item budget item = some p) :
    max 10000 (budget.fdiv 3) ≤ p.lprice ∧ p.lprice ≤ budget := by
  unfold process_search_item at h
  split at h
  · exact absurd h (by simp)
  · split at h
    · exact absurd h (by simp)
    · rename_i lprice hparse
      split at h
      · exact absurd h (by simp)
      · rename_i hrange
        dsimp only at h
        split at h
        · exact absurd h (by simp)
        · injection h with h
          subst h
          rw [not_or, not_lt, not_lt] at hrange
          exact ⟨hrange.1, hrange.2⟩

theorem simulate_search_price_bounds {keywords : List String} {budget : Int}
    {display : Nat} (hb : 0 ≤ budget) :
    ∀ p ∈ simulate_search keywords budget display, 0 ≤ p.lprice ∧ p.lprice ≤ budget := by
  intro p hp
  unfold simulate_search at hp
  obtain ⟨i, hir, rfl⟩ := List.mem_map.mp hp
  have hi : i < min display 5 := List.mem_range.mp hir
  have hd0 : (0:Int) ≤ (display:Int) + 1 := by omega
  have hdne : ((display:Int) + 1) ≠ 0 := by omega
  have hi1 : (0:Int) ≤ (i:Int) + 1 := by omega
  have hi2 : (i:Int) + 1 ≤ (display:Int) + 1 := by omega
  constructor
  · exact Int.fdiv_nonneg (mul_nonneg hb hi1) hd0
  · have hle : budget * ((i:Int) + 1) ≤ budget * ((display:Int) + 1) :=
      mul_le_mul_of_nonneg_left hi2 hb
    have h1 : (budget * ((i:Int) + 1)).fdiv ((display:Int) + 1)
        ≤ (budget * ((display:Int) + 1)).fdiv ((display:Int) + 1) := by
      rw [Int.fdiv_eq_ediv _ hd0, Int.fdiv_eq_ediv _ hd0]
      exact Int.ediv_le_ediv (by omega) hle
    rwa [Int.mul_fdiv_cancel _ hdne] at h1

theorem refine_go_attempts_le (search : Nat → SearchOutcome) :
    ∀ fuel n best bestA acc,
      ((refine_go search fuel n best bestA acc).2.2.2).length ≤ acc.length + fuel := by
  intro fuel
  induction fuel with
  | zero => intro n best bestA acc; simp [refine_go]
  | succ fuel ih =>
    intro n best bestA acc
    unfold refine_go
    rcases hs : search n with ps | _
    · dsimp only
      split
      · simp
      · split
        · have h := ih (n + 1) ps
            (some ⟨n, ps.length, decide (MIN_PRODUCTS_THRESHOLD ≤ ps.length), strategy_for n⟩)
            (acc ++ [⟨n, ps.length, decide (MIN_PRODUCTS_THRESHOLD ≤ ps.length), strategy_for n⟩])
          simp only [List.length_append, List.length_cons, List.length_nil] at h ⊢
          omega
        · have h := ih (n + 1) best bestA
            (acc ++ [⟨n, ps.length, decide (MIN_PRODUCTS_THRESHOLD ≤ ps.length), strategy_for n⟩])
          simp only [List.length_append, List.length_cons, List.length_nil] at h ⊢
          omega
    · dsimp only
      have h := ih (n + 1) best bestA (acc ++ [⟨n, 0, false, strategy_for n⟩])
      simp only [List.length_append, List.length_cons, List.length_nil] at h ⊢
      omega

theorem refine_go_dropLast_lt (search : Nat → SearchOutcome) :
    ∀ fuel n best bestA acc,
      (∀ a ∈ acc, a.products_found < MIN_PRODUCTS_THRESHOLD) →
      ∀ a ∈ ((refine_go search fuel n best bestA acc).2.2.2).dropLast,
        a.products_found < MIN_PRODUCTS_THRESHOLD := by
  intro fuel
  induction fuel with
  | zero =>
    intro n best bestA acc hacc a ha
    simp only [refine_go] at ha
    exact hacc a ((List.dropLast_sublist _).subset ha)
  | succ fuel ih =>
    intro n best bestA acc hacc a ha
    unfold refine_go at ha
    rcases hs : search n with ps | _
    · rw [hs] at ha
      dsimp only at ha
      by_cases hc : MIN_PRODUCTS_THRESHOLD ≤ ps.length
      · rw [if_pos hc] at ha
        dsimp only at ha
        rw [List.dropLast_concat] at ha
        exact hacc a ha
      · rw [if_neg hc] at ha
        have hlt : ps.length < MIN_PRODUCTS_THRESHOLD := Nat.lt_of_not_le hc
        have hacc2 : ∀ b ∈ acc ++ [(⟨n, ps.length,
            decide (MIN_PRODUCTS_THRESHOLD ≤ ps.length), strategy_for n⟩ :
            QueryRefinementAttempt)], b.products_found < MIN_PRODUCTS_THRESHOLD := by
          intro b hb
          rcases List.mem_append.mp hb with hb | hb
          · exact hacc b hb
          · rcases List.mem_singleton.mp hb with rfl
            exact hlt
        split at ha
        · exact ih (n + 1) ps _ _ hacc2 a ha
        · exact ih (n + 1) best bestA _ hacc2 a ha
    · rw [hs] at ha
      dsimp only at ha
      have hacc2 : ∀ b ∈ acc ++ [(⟨n, 0, false, strategy_for n⟩ : QueryRefinementAttempt)],
          b.products_found < MIN_PRODUCTS_THRESHOLD := by
        intro b hb
        rcases List.mem_append.mp hb with hb | hb
        · exact hacc b hb
        · rcases List.mem_singleton.mp hb with rfl
          show (0:Nat) < MIN_PRODUCTS_THRESHOLD
          decide
      exact ih (n + 1) best bestA _ hacc2 a ha

/-! ## Claim C1 -/

/-- C1 (amended): every CatalogProduct accepted by the API-path filter
`process_search_results` satisfies
`max(10000, budgetMax // 3) ≤ price ≤ budgetMax`; but products produced by
the deterministic fallback generator are not run through that filter — for a
non-negative budget they satisfy only `0 ≤ price ≤ budgetMax` and can fall
below the `max(10000, budgetMax // 3)` lower bound. -/
theorem C1_budget_bounds :
    (∀ (items : List RawSearchItem) (budget : Int),
      ∀ p ∈ process_search_results items budget,
        max 10000 (budget.fdiv 3) ≤ p.lprice ∧ p.lprice ≤ budget)
    ∧ (∀ (keywords : List String) (budget : Int) (display : Nat), 0 ≤ budget →
      ∀ p ∈ simulate_search keywords budget display,
        0 ≤ p.lprice ∧ p.lprice ≤ budget) := by
  constructor
  · intro items budget p hp
    obtain ⟨item, _, hitem⟩ := List.mem_filterMap.mp hp
    exact process_search_item_price_bounds hitem
  · intro keywords budget display hb p hp
    exact simulate_search_price_bounds hb p hp

/-- C1 (witness): the bounds instantiated on a concrete processed record and
on a concrete fallback product. -/
theorem C1_budget_bounds_witness :
    (max 10000 ((100000:Int).fdiv 3) ≤ c1_product.lprice ∧ c1_product.lprice ≤ 100000)
    ∧ (0 ≤ c1_sim_product.lprice ∧ c1_sim_product.lprice ≤ 100000) :=
  ⟨C1_budget_bounds.1 [c1_raw_item] 100000 c1_product (by decide),
   C1_budget_bounds.2 ["선물"] 100000 1 (by decide) c1_sim_product (by decide)⟩

/-- C1 (counterexample): when the client degrades to the fallback generator
(here: a transport failure with budget 150000 and display 35), the first
product handed onward is priced 4166, below the claimed lower bound
`max(10000, 150000 // 3) = 50000`. -/
theorem C1_counterexample :
    ((search_products true ["선물"] 150000 35 .transportFailure).map
      (fun p => p.lprice)).head? = some 4166
    ∧ (4166:Int) < max 10000 ((150000:Int).fdiv 3) := by
  constructor
  · decide
  · decide

/-! ## Claim C2 -/

/-- C2: the refinement controller records at most five attempts, and every
attempt that was followed by another one had a deduplicated product count
below the success threshold of three — so the loop stops at the first
attempt reaching the threshold and never runs a later strategy after a
success. -/
theorem C2_retry_bound_and_early_exit (search : Nat → SearchOutcome) :
    (refine_search_with_retries search).2.attempts.length ≤ MAX_RETRY_ATTEMPTS
    ∧ ∀ a ∈ (refine_search_with_retries search).2.attempts.dropLast,
        a.products_found < MIN_PRODUCTS_THRESHOLD := by
  constructor
  · have h := refine_go_attempts_le search MAX_RETRY_ATTEMPTS 1 [] none []
    simpa [refine_search_with_retries] using h
  · intro a ha
    refine refine_go_dropLast_lt search MAX_RETRY_ATTEMPTS 1 [] none [] (by simp) a ?_
    simpa [refine_search_with_retries] using ha

/-- C2 (witness): against an oracle returning empty results everywhere, the
first recorded attempt is not the last and is below the threshold. -/
theorem C2_retry_bound_witness :
    c2_attempt.products_found < MIN_PRODUCTS_THRESHOLD
    ∧ (refine_search_with_retries c2_search).2.attempts.length ≤ MAX_RETRY_ATTEMPTS :=
  ⟨(C2_retry_bound_and_early_exit c2_search).2 c2_attempt (by decide),
   (C2_retry_bound_and_early_exit c2_search).1⟩

/-! ## Claim C8 -/

/-- C8 (amended): a search call that degrades (non-success status or
transport exception) while credentials are configured returns the fallback
generator's products completely unchanged — no per-product provenance flag
exists — and the only provenance flag in the response,
`simulation_mode = not naver_enabled`, is `false` for such a call because it
reflects credential configuration, not per-call fallback. -/
theorem C8_degraded_results_unflagged (keywords : List String) (budget : Int)
    (display : Nat) (status : Nat) :
    search_products true keywords budget display (.httpError status)
      = simulate_search keywords budget display
    ∧ search_products true keywords budget display .transportFailure
      = simulate_search keywords budget display
    ∧ response_simulation_mode true = false := by
  refine ⟨?_, ?_, rfl⟩ <;> simp [search_products]

/-- C8 (counterexample): a verified 200-status search over `c8_raw_item` and
a degraded 500-status search produce exactly the same product list (of
length one), so the degraded result is indistinguishable from the verified
one — no provenance flag separates them. -/
theorem C8_counterexample_indistinguishable :
    search_products true ["선물"] 100000 1 (.httpOk [c8_raw_item])
      = search_products true ["선물"] 100000 1 (.httpError 500)
    ∧ (search_products true ["선물"] 100000 1 (.httpOk [c8_raw_item])).length = 1 := by
  constructor
  · decide
  · decide

theorem le_max_products_found {a : QueryRefinementAttempt}
    {l : List QueryRefinementAttempt} (h : a ∈ l) :
    a.products_found ≤ max_products_found l := by
  induction l with
  | nil => cases h
  | cons x xs ih =>
    rcases List.mem_cons.mp h with rfl | h
    · exact le_max_left _ _
    · exact le_trans (ih h) (le_max_right _ _)

theorem max_products_found_le {l : List QueryRefinementAttempt} {m : Nat}
    (h : ∀ a ∈ l, a.products_found ≤ m) : max_products_found l ≤ m := by
  induction l with
  | nil => exact Nat.zero_le m
  | cons x xs ih =>
    refine max_le (h x (by simp)) (ih (fun a ha => h a (List.mem_cons_of_mem _ ha)))

theorem refine_go_no_success_spec (search : Nat → SearchOutcome) :
    ∀ fuel n best bestA acc,
      (bestA = none → best = []) →
      (∀ b, bestA = some b → b ∈ acc ∧ b.products_found = best.length
        ∧ 1 ≤ b.products_found ∧ search b.attempt_number = SearchOutcome.ok best) →
      (∀ a ∈ acc, a.products_found ≤ best.length) →
      (∀ a ∈ (refine_go search fuel n best bestA acc).2.2.2,
        a.products_found < MIN_PRODUCTS_THRESHOLD) →
      ((refine_go search fuel n best bestA acc).2.2.1 = none →
        (refine_go search fuel n best bestA acc).1 = [])
      ∧ (∀ b, (refine_go search fuel n best bestA acc).2.2.1 = some b →
          b ∈ (refine_go search fuel n best bestA acc).2.2.2
          ∧ b.products_found = (refine_go search fuel n best bestA acc).1.length
          ∧ 1 ≤ b.products_found
          ∧ search b.attempt_number
              = SearchOutcome.ok (refine_go search fuel n best bestA acc).1)
      ∧ (∀ a ∈ (refine_go search fuel n best bestA acc).2.2.2,
          a.products_found ≤ (refine_go search fuel n best bestA acc).1.length) := by
  intro fuel
  induction fuel with
  | zero =>
    intro n best bestA acc h1 h2 h3 _
    exact ⟨fun hb => h1 hb, h2, h3⟩
  | succ fuel ih =>
    intro n best bestA acc h1 h2 h3 hns
    rw [refine_go] at hns ⊢
    rcases hs : search n with ps | _
    · simp only [hs] at hns ⊢
      by_cases hc : MIN_PRODUCTS_THRESHOLD ≤ ps.length
      · rw [if_pos hc] at hns
        exfalso
        have := hns ⟨n, ps.length, decide (MIN_PRODUCTS_THRESHOLD ≤ ps.length),
          strategy_for n⟩ (by simp)
        simp only at this
        omega
      · rw [if_neg hc] at hns ⊢
        set a0 : QueryRefinementAttempt :=
          ⟨n, ps.length, decide (MIN_PRODUCTS_THRESHOLD ≤ ps.length), strategy_for n⟩ with ha0
        by_cases hbl : best.length < ps.length
        · rw [if_pos hbl] at hns ⊢
          refine ih (n + 1) ps (some a0) (acc ++ [a0]) (by simp) ?_ ?_ hns
          · intro b hb
            injection hb with hb
            subst hb
            refine ⟨List.mem_append_right _ (by simp), rfl, ?_, hs⟩
            show 1 ≤ ps.length
            omega
          · intro a ha
            rcases List.mem_append.mp ha with ha | ha
            · exact le_trans (h3 a ha) (le_of_lt hbl)
            · rcases List.mem_singleton.mp ha with rfl
              exact le_refl _
        · rw [if_neg hbl] at hns ⊢
          refine ih (n + 1) best bestA (acc ++ [a0]) h1 ?_ ?_ hns
          · intro b hb
            obtain ⟨hm, he, hge, hsr⟩ := h2 b hb
            exact ⟨List.mem_append_left _ hm, he, hge, hsr⟩
          · intro a ha
            rcases List.mem_append.mp ha with ha | ha
            · exact h3 a ha
            · rcases List.mem_singleton.mp ha with rfl
              simpa using Nat.le_of_not_lt hbl
    · simp only [hs] at hns ⊢
      refine ih (n + 1) best bestA (acc ++ [⟨n, 0, false, strategy_for n⟩]) h1 ?_ ?_ hns
      · intro b hb
        obtain ⟨hm, he, hge, hsr⟩ := h2 b hb
        exact ⟨List.mem_append_left _ hm, he, hge, hsr⟩
      · intro a ha
        rcases List.mem_append.mp ha with ha | ha
        · exact h3 a ha
        · rcases List.mem_singleton.mp ha with rfl
          exact Nat.zero_le _

/-! ## Claim C5 -/

/-- C5: when no refinement attempt reaches the success threshold, the
controller returns (without raising) the products of the best attempt — the
returned count equals the highest product count seen over all attempts, and
any recorded best attempt is one of the attempts realising that count, with
the returned list being exactly that attempt's search result; in particular
when every attempt yields zero qualifying products the result is the empty
product list with no best attempt, and the enhanced engine then returns the
AI intents unchanged (unmatched) in a success response. -/
theorem C5_graceful_degradation (search : Nat → SearchOutcome)
    (ai_recommendations : List GiftRecommendation) (request : GiftRequest)
    (h : ∀ a ∈ (refine_search_with_retries search).2.attempts,
      a.products_found < MIN_PRODUCTS_THRESHOLD) :
    (refine_search_with_retries search).1.length
      = max_products_found (refine_search_with_retries search).2.attempts
    ∧ (∀ b, (refine_search_with_retries search).2.best_attempt = some b →
        b ∈ (refine_search_with_retries search).2.attempts
        ∧ b.products_found = (refine_search_with_retries search).1.length
        ∧ search b.attempt_number = SearchOutcome.ok (refine_search_with_retries search).1)
    ∧ ((∀ a ∈ (refine_search_with_retries search).2.attempts, a.products_found = 0) →
        (refine_search_with_retries search).1 = []
        ∧ (refine_search_with_retries search).2.best_attempt = none
        ∧ (generate_recommendations_with_retry ai_recommendations request search).recommendations
            = ai_recommendations
        ∧ (generate_recommendations_with_retry ai_recommendations request search).success
            = true) := by
  have hattempts : (refine_search_with_retries search).2.attempts
      = (refine_go search MAX_RETRY_ATTEMPTS 1 [] none []).2.2.2 := rfl
  have hbest : (refine_search_with_retries search).2.best_attempt
      = (refine_go search MAX_RETRY_ATTEMPTS 1 [] none []).2.2.1 := rfl
  have hres : (refine_search_with_retries search).1
      = (refine_go search MAX_RETRY_ATTEMPTS 1 [] none []).1 := rfl
  have hns : ∀ a ∈ (refine_go search MAX_RETRY_ATTEMPTS 1 [] none []).2.2.2,
      a.products_found < MIN_PRODUCTS_THRESHOLD := by
    intro a ha
    exact h a (hattempts ▸ ha)
  obtain ⟨s1, s2, s3⟩ := refine_go_no_success_spec search MAX_RETRY_ATTEMPTS 1 [] none []
    (fun _ => rfl) (fun b hb => by cases hb) (fun a ha => by cases ha) hns
  rw [hattempts, hbest, hres]
  refine ⟨?_, ?_, ?_⟩
  · refine le_antisymm ?_ (max_products_found_le s3)
    rcases hb : (refine_go search MAX_RETRY_ATTEMPTS 1 [] none []).2.2.1 with _ | b
    · rw [s1 hb]
      exact Nat.zero_le _
    · obtain ⟨hmem, heq, _, _⟩ := s2 b hb
      rw [← heq]
      exact le_max_products_found hmem
  · intro b hb
    obtain ⟨hmem, heq, _, hsr⟩ := s2 b hb
    exact ⟨hmem, heq, hsr⟩
  · intro hz
    have hnone : (refine_go search MAX_RETRY_ATTEMPTS 1 [] none []).2.2.1 = none := by
      rcases hb : (refine_go search MAX_RETRY_ATTEMPTS 1 [] none []).2.2.1 with _ | b
      · rfl
      · obtain ⟨hmem, _, hge, _⟩ := s2 b hb
        have := hz b hmem
        omega
    have hempty : (refine_go search MAX_RETRY_ATTEMPTS 1 [] none []).1 = [] := s1 hnone
    have hemp2 : (refine_search_with_retries search).1.isEmpty = true := by
      rw [hres, hempty]
      rfl
    refine ⟨hempty, hnone, ?_, ?_⟩
    · simp [generate_recommendations_with_retry, hemp2]
    · simp [generate_recommendations_with_retry, hemp2]

/-- C5 (witness): against an oracle whose every attempt raises, all five
recorded attempts have zero products, the result is empty with no best
attempt, and the enhanced engine returns the AI recommendation unchanged in
a success response. -/
theorem C5_graceful_degradation_witness :
    (refine_search_with_retries c5_search).1 = []
    ∧ (refine_search_with_retries c5_search).2.best_attempt = none
    ∧ (generate_recommendations_with_retry [c5_airec] c5_request c5_search).recommendations
        = [c5_airec]
    ∧ (generate_recommendations_with_retry [c5_airec] c5_request c5_search).success = true :=
  (C5_graceful_degradation c5_search [c5_airec] c5_request (by decide)).2.2 (by decide)

theorem insertBy_perm (le : α → α → Bool) (a : α) (l : List α) :
    (insertBy le a l).Perm (a :: l) := by
  induction l with
  | nil => exact List.Perm.refl _
  | cons b bs ih =>
    unfold insertBy
    split
    · exact List.Perm.refl _
    · exact (ih.cons b).trans (List.Perm.swap a b bs)

theorem sortBy_perm (le : α → α → Bool) (l : List α) : (sortBy le l).Perm l := by
  induction l with
  | nil => exact List.Perm.refl _
  | cons a as ih =>
    have : sortBy le (a :: as) = insertBy le a (sortBy le as) := rfl
    rw [this]
    exact (insertBy_perm le a (sortBy le as)).trans (ih.cons a)

theorem dedup_products_go_pairwise :
    ∀ (ps acc : List NaverProductResult) (seenIds seenSigs : List String),
      (∀ q ∈ acc, q.productId ∈ seenIds) →
      (∀ q ∈ acc, create_product_signature q ∈ seenSigs) →
      List.Pairwise (fun a b => a.productId ≠ b.productId) acc →
      List.Pairwise (fun a b => create_product_signature a ≠ create_product_signature b) acc →
      List.Pairwise (fun a b => a.productId ≠ b.productId)
          (dedup_products_go ps acc seenIds seenSigs)
        ∧ List.Pairwise (fun a b => create_product_signature a ≠ create_product_signature b)
          (dedup_products_go ps acc seenIds seenSigs) := by
  intro ps
  induction ps with
  | nil =>
    intro acc seenIds seenSigs _ _ h3 h4
    rw [dedup_products_go]
    exact ⟨h3, h4⟩
  | cons p rest ih =>
    intro acc seenIds seenSigs h1 h2 h3 h4
    rw [dedup_products_go]
    split
    · exact ih acc seenIds seenSigs h1 h2 h3 h4
    · rename_i hid
      dsimp only
      split
      · exact ih acc seenIds seenSigs h1 h2 h3 h4
      · rename_i hsig
        split
        · exact ih acc seenIds seenSigs h1 h2 h3 h4
        · refine ih (acc ++ [p]) (seenIds ++ [p.productId])
            (seenSigs ++ [create_product_signature p]) ?_ ?_ ?_ ?_
          · intro q hq
            rcases List.mem_append.mp hq with hq | hq
            · exact List.mem_append_left _ (h1 q hq)
            · rcases List.mem_singleton.mp hq with rfl
              exact List.mem_append_right _ (by simp)
          · intro q hq
            rcases List.mem_append.mp hq with hq | hq
            · exact List.mem_append_left _ (h2 q hq)
            · rcases List.mem_singleton.mp hq with rfl
              exact List.mem_append_right _ (by simp)
          · refine List.pairwise_append.mpr ⟨h3, by simp, ?_⟩
            intro a ha b hb
            rcases List.mem_singleton.mp hb with rfl
            intro heq
            exact hid (heq ▸ h1 a ha)
          · refine List.pairwise_append.mpr ⟨h4, by simp, ?_⟩
            intro a ha b hb
            rcases List.mem_singleton.mp hb with rfl
            intro heq
            exact hsig (heq ▸ h2 a ha)

/-! ## Claim C3 -/

/-- C3 (amended): after one multi-sort merge, no two products surviving
deduplication, scoring and quality sorting share an external product id, and
no two share a product signature (the seen-sets are keyed by the accepted
products, so this holds whatever the diversity cap drops); the amendment is
that the survivor of a duplicate group need not be its first occurrence in
the merged order, because an earlier occurrence can be dropped by the
brand-and-category diversity cap without registering its id or signature. -/
theorem C3_multi_sort_distinct (simResults ascResults dscResults : List NaverProductResult) :
    List.Pairwise (fun a b => a.productId ≠ b.productId)
      (search_products_multi_sort simResults ascResults dscResults)
    ∧ List.Pairwise
        (fun a b => create_product_signature a ≠ create_product_signature b)
      (search_products_multi_sort simResults ascResults dscResults) := by
  obtain ⟨hid, hsig⟩ := dedup_products_go_pairwise
    (merge_multi_sort simResults ascResults dscResults) [] [] []
    (by simp) (by simp) (by simp) (by simp)
  have hid2 : List.Pairwise (fun a b => a.productId ≠ b.productId)
      ((dedup_products (merge_multi_sort simResults ascResults dscResults)).map
        apply_quality_score) :=
    List.pairwise_map.mpr hid
  have hsig2 : List.Pairwise
      (fun a b => create_product_signature a ≠ create_product_signature b)
      ((dedup_products (merge_multi_sort simResults ascResults dscResults)).map
        apply_quality_score) :=
    List.pairwise_map.mpr hsig
  have hperm := sortBy_perm
    (fun a b => decide ((b.quality_score.getD 0) ≤ (a.quality_score.getD 0)))
    ((dedup_products (merge_multi_sort simResults ascResults dscResults)).map
      apply_quality_score)
  constructor
  · exact (hperm.pairwise_iff (fun h => h.symm)).mpr hid2
  · exact (hperm.pairwise_iff (fun h => h.symm)).mpr hsig2

/-- C3 (counterexample): in `c3_pool` the products with ids x4 and x5 share
one signature; x4 is the earlier occurrence but is excluded by the diversity
cap, so the survivor of the duplicate pair is the later occurrence x5 — the
first occurrence is not the one kept. -/
theorem C3_counterexample_first_occurrence :
    create_product_signature (c3_product "ddd" "x4" "c")
      = create_product_signature (c3_product "ddd" "x5" "z")
    ∧ ((search_products_multi_sort c3_pool [] []).map
        (fun p => p.productId)).contains "x5" = true
    ∧ ((search_products_multi_sort c3_pool [] []).map
        (fun p => p.productId)).contains "x4" = false := by
  refine ⟨by decide, ?_, ?_⟩
  · with_unfolding_all decide
  · with_unfolding_all decide

/-! ## Claim C4 -/

/-- C4 (amended): `calculate_product_quality_score` always lies in [0, 1]
(it is clamped); but the fixed 0.1 relevance-sort bonus is added after the
clamp, so the score actually attached to a product lies in [0, 1.1] and can
exceed 1.0 for an item retrieved via the relevance sort. -/
theorem C4_quality_score_range (p : NaverProductResult) :
    0 ≤ calculate_product_quality_score p
    ∧ calculate_product_quality_score p ≤ 1
    ∧ 0 ≤ (apply_quality_score p).quality_score.getD 0
    ∧ (apply_quality_score p).quality_score.getD 0 ≤ 11/10 := by
  have h0 : 0 ≤ calculate_product_quality_score p := by
    unfold calculate_product_quality_score
    exact le_min (by norm_num) (le_max_left _ _)
  have h1 : calculate_product_quality_score p ≤ 1 := by
    unfold calculate_product_quality_score
    exact min_le_left _ _
  have happ : (apply_quality_score p).quality_score
      = some (if p.search_method == some "sim"
          then calculate_product_quality_score p + 1/10
          else calculate_product_quality_score p) := rfl
  refine ⟨h0, h1, ?_, ?_⟩
  · rw [happ, Option.getD_some]
    split
    · linarith
    · exact h0
  · rw [happ, Option.getD_some]
    split
    · linarith
    · linarith

/-- C4 (counterexample): the premium-brand, premium-mall product
`c4_product`, retrieved via the relevance sort, reaches the matcher with an
attached quality score of 1.09, outside [0.0, 1.0]. -/
theorem C4_counterexample_bonus_exceeds_one :
    ((search_products_multi_sort [c4_product] [] []).map (fun p => p.quality_score))
      = [some (109/100)]
    ∧ ¬ ((109:ℚ)/100 ≤ 1) := by
  constructor
  · with_unfolding_all decide
  · with_unfolding_all decide

/-! ## Claim C6 -/

/-- C6: handling of the judge's reply over a candidate list — a reply whose
upper-casing is NONE leaves the intent unmatched even when candidates exist;
a reply parsing to an integer index inside the candidate range binds exactly
that candidate; a non-numeric reply, or an in-parse but out-of-range index,
falls back to the heuristic matcher instead of failing. -/
theorem C6_judge_response_handling (result : String)
    (naver_products : List NaverProductResult) (budget_max_krw : Int)
    (ai_title : String) :
    (pyUpper result = "NONE" →
      gpt_validate_and_select_product (some result) naver_products budget_max_krw ai_title
        = none)
    ∧ (∀ k : Int, pyUpper result ≠ "NONE" → pyParseInt result = some k →
        ∀ _ : 0 ≤ k, ∀ _ : k < (naver_products.length : Int),
        ∃ hk : k.toNat < naver_products.length,
        gpt_validate_and_select_product (some result) naver_products budget_max_krw ai_title
          = some (naver_products.get ⟨k.toNat, hk⟩))
    ∧ (pyUpper result ≠ "NONE" → pyParseInt result = none →
        gpt_validate_and_select_product (some result) naver_products budget_max_krw ai_title
          = select_best_matching_product naver_products budget_max_krw ai_title)
    ∧ (∀ k : Int, pyUpper result ≠ "NONE" → pyParseInt result = some k →
        (k < 0 ∨ (naver_products.length : Int) ≤ k) →
        gpt_validate_and_select_product (some result) naver_products budget_max_krw ai_title
          = select_best_matching_product naver_products budget_max_krw ai_title) := by
  refine ⟨?_, ?_, ?_, ?_⟩
  · intro h
    simp [gpt_validate_and_select_product, h]
  · intro k hne hparse h0 h1
    refine ⟨by omega, ?_⟩
    simp only [gpt_validate_and_select_product]
    rw [if_neg hne, hparse]
    dsimp only
    rw [dif_pos ⟨h0, h1⟩]
  · intro hne hparse
    simp only [gpt_validate_and_select_product]
    rw [if_neg hne, hparse]
  · intro k hne hparse hout
    simp only [gpt_validate_and_select_product]
    rw [if_neg hne, hparse]
    dsimp only
    rw [dif_neg (show ¬(0 ≤ k ∧ k < (naver_products.length : Int)) by omega)]

/-- C6 (witness): over the five-candidate list, reply "2" binds candidate 2,
reply "NONE" leaves the intent unmatched, and replies "abc" and "7" fall
back to the heuristic matcher. -/
theorem C6_judge_response_handling_witness :
    gpt_validate_and_select_product (some "2") c6_candidates 100000 "선물"
      = some (c6_candidate "k2")
    ∧ gpt_validate_and_select_product (some "NONE") c6_candidates 100000 "선물" = none
    ∧ gpt_validate_and_select_product (some "abc") c6_candidates 100000 "선물"
      = select_best_matching_product c6_candidates 100000 "선물"
    ∧ gpt_validate_and_select_product (some "7") c6_candidates 100000 "선물"
      = select_best_matching_product c6_candidates 100000 "선물" := by
  refine ⟨?_, ?_, ?_, ?_⟩
  · obtain ⟨hk, h⟩ := (C6_judge_response_handling "2" c6_candidates 100000 "선물").2.1 2
      (by decide) (by decide) (by decide) (by decide)
    exact h.trans (by rfl)
  · exact (C6_judge_response_handling "NONE" c6_candidates 100000 "선물").1 (by decide)
  · exact (C6_judge_response_handling "abc" c6_candidates 100000 "선물").2.2.1
      (by decide) (by decide)
  · exact (C6_judge_response_handling "7" c6_candidates 100000 "선물").2.2.2 7
      (by decide) (by decide) (by decide)

theorem pick_best_snd_ge_init (score : NaverProductResult → ℚ) :
    ∀ (l : List NaverProductResult) (st : Option NaverProductResult × ℚ),
      st.2 ≤ (pick_best score l st).2 := by
  intro l
  induction l with
  | nil => intro st; exact le_refl _
  | cons p ps ih =>
    intro st
    rw [pick_best]
    split
    · exact le_trans (le_of_lt (by assumption)) (ih _)
    · exact ih st

theorem pick_best_snd_ge_mem (score : NaverProductResult → ℚ) :
    ∀ (l : List NaverProductResult) (st : Option NaverProductResult × ℚ),
      ∀ q ∈ l, score q ≤ (pick_best score l st).2 := by
  intro l
  induction l with
  | nil => intro st q hq; cases hq
  | cons p ps ih =>
    intro st q hq
    rw [pick_best]
    rcases List.mem_cons.mp hq with rfl | hq
    · split
      · exact le_trans (le_refl _) (by
          have h := pick_best_snd_ge_init score ps (some q, score q)
          exact h)
      · rename_i hlt
        exact le_trans (le_of_not_lt hlt) (pick_best_snd_ge_init score ps st)
    · split
      · exact ih _ q hq
      · exact ih st q hq

theorem pick_best_consistent (score : NaverProductResult → ℚ) :
    ∀ (l : List NaverProductResult) (st : Option NaverProductResult × ℚ),
      (∀ p, st.1 = some p → st.2 = score p) →
      ∀ p, (pick_best score l st).1 = some p → (pick_best score l st).2 = score p := by
  intro l
  induction l with
  | nil => intro st h p hp; exact h p hp
  | cons q qs ih =>
    intro st h p hp
    rw [pick_best] at hp ⊢
    split at hp
    · rename_i hlt
      rw [if_pos hlt]
      exact ih _ (by intro p' hp'; injection hp' with hp'; subst hp'; rfl) p hp
    · rename_i hlt
      rw [if_neg hlt]
      exact ih st h p hp

theorem pick_best_fst_mem (score : NaverProductResult → ℚ) :
    ∀ (l : List NaverProductResult) (st : Option NaverProductResult × ℚ) (p : NaverProductResult),
      (pick_best score l st).1 = some p → p ∈ l ∨ st.1 = some p := by
  intro l
  induction l with
  | nil => intro st p hp; exact Or.inr hp
  | cons q qs ih =>
    intro st p hp
    rw [pick_best] at hp
    split at hp
    · rcases ih _ p hp with hm | hst
      · exact Or.inl (List.mem_cons_of_mem _ hm)
      · injection hst with hst
        subst hst
        exact Or.inl (List.mem_cons_self _ _)
    · rcases ih st p hp with hm | hst
      · exact Or.inl (List.mem_cons_of_mem _ hm)
      · exact Or.inr hst

theorem pick_best_fst_isSome (score : NaverProductResult → ℚ) :
    ∀ (l : List NaverProductResult) (st : Option NaverProductResult × ℚ),
      st.1.isSome → ((pick_best score l st).1).isSome := by
  intro l
  induction l with
  | nil => intro st h; exact h
  | cons q qs ih =>
    intro st h
    rw [pick_best]
    split
    · exact ih _ rfl
    · exact ih st h

theorem calculate_relevance_score_nonneg (a b : String) :
    0 ≤ calculate_relevance_score a b := by
  unfold calculate_relevance_score
  split
  · exact le_refl _
  · dsimp only
    split
    · exact le_refl _
    · exact div_nonneg (by positivity) (by positivity)

theorem candidate_score_nonneg (budget_max_krw : Int) (ai_title : String)
    (p : NaverProductResult) : 0 ≤ candidate_score budget_max_krw ai_title p := by
  unfold candidate_score
  have h1 : (0:ℚ) ≤ max 0 (1 - |((p.lprice - budget_max_krw.fdiv 2 : Int) : ℚ)|
      / ((budget_max_krw.fdiv 2 : Int) : ℚ)) * (3/10) :=
    mul_nonneg (le_max_left _ _) (by norm_num)
  have h2 : (0:ℚ) ≤ calculate_relevance_score ai_title p.title * (7/10) :=
    mul_nonneg (calculate_relevance_score_nonneg _ _) (by norm_num)
  linarith

/-! ## Claim C9 -/

/-- C9 (amended): when the heuristic matcher returns a candidate, that
candidate belongs to `budget_pool` — the candidates within the budget, or
all candidates when none is within it — and maximises
`0.3 * price_proximity + 0.7 * lexical_overlap` over that pool (not over
the full candidate list, which is what the original claim asserted). -/
theorem C9_heuristic_max (products : List NaverProductResult) (budget_max_krw : Int)
    (ai_title : String) (p : NaverProductResult)
    (h : select_best_matching_product products budget_max_krw ai_title = some p) :
    p ∈ budget_pool products budget_max_krw
    ∧ ∀ q ∈ budget_pool products budget_max_krw,
        candidate_score budget_max_krw ai_title q
          ≤ candidate_score budget_max_krw ai_title p := by
  unfold select_best_matching_product at h
  by_cases hl : (budget_pool products budget_max_krw).length = 1
  · rw [if_pos hl] at h
    obtain ⟨x, hx⟩ := List.length_eq_one.mp hl
    rw [hx] at h
    injection h with h
    subst h
    constructor
    · rw [hx]; exact List.mem_singleton_self _
    · intro q hq
      rw [hx] at hq
      rcases List.mem_singleton.mp hq with rfl
      exact le_refl _
  · rw [if_neg hl] at h
    rcases hpick : (pick_best (candidate_score budget_max_krw ai_title)
        (budget_pool products budget_max_krw) (none, -1)).1 with _ | p0
    · exfalso
      rcases hpool : budget_pool products budget_max_krw with _ | ⟨a, as⟩
      · rw [hpool] at h
        simp [pick_best] at h
      · have hstep : pick_best (candidate_score budget_max_krw ai_title) (a :: as) (none, -1)
            = pick_best (candidate_score budget_max_krw ai_title) as
                (if (-1:ℚ) < candidate_score budget_max_krw ai_title a
                  then (some a, candidate_score budget_max_krw ai_title a) else (none, -1)) := by
          rw [pick_best]
        have hlt : (-1:ℚ) < candidate_score budget_max_krw ai_title a :=
          lt_of_lt_of_le (by norm_num) (candidate_score_nonneg _ _ _)
        have hsome : ((pick_best (candidate_score budget_max_krw ai_title) (a :: as)
            (none, -1)).1).isSome := by
          rw [hstep, if_pos hlt]
          exact pick_best_fst_isSome _ _ _ rfl
        rw [hpool] at hpick
        rw [hpick] at hsome
        cases hsome
    · rw [hpick] at h
      injection h with h
      subst h
      constructor
      · rcases pick_best_fst_mem _ _ _ _ hpick with hm | hst
        · exact hm
        · cases hst
      · intro q hq
        have hcons := pick_best_consistent (candidate_score budget_max_krw ai_title)
          (budget_pool products budget_max_krw) (none, -1)
          (by intro p' hp'; cases hp') p0 hpick
        have hge := pick_best_snd_ge_mem (candidate_score budget_max_krw ai_title)
          (budget_pool products budget_max_krw) (none, -1) q hq
        rw [hcons] at hge
        exact hge

/-- C9 (witness): on the two-candidate list the matcher returns the
in-budget candidate, which maximises the score over the budget pool. -/
theorem C9_heuristic_max_witness :
    c9_in_budget ∈ budget_pool [c9_over_budget, c9_in_budget] 100000
    ∧ ∀ q ∈ budget_pool [c9_over_budget, c9_in_budget] 100000,
        candidate_score 100000 "aaa bbb" q ≤ candidate_score 100000 "aaa bbb" c9_in_budget :=
  C9_heuristic_max [c9_over_budget, c9_in_budget] 100000 "aaa bbb" c9_in_budget (by decide)

/-- C9 (counterexample): over the candidate list, the over-budget candidate
scores 0.7 and the in-budget candidate scores 0.3, yet the matcher returns
the in-budget one — it does not maximise the score over the candidate list
as claimed, because the budget filter runs first. -/
theorem C9_counterexample_budget_filter :
    select_best_matching_product [c9_over_budget, c9_in_budget] 100000 "aaa bbb"
      = some c9_in_budget
    ∧ candidate_score 100000 "aaa bbb" c9_in_budget
        < candidate_score 100000 "aaa bbb" c9_over_budget := by
  constructor
  · decide
  · with_unfolding_all decide

theorem budget_pool_subset {products : List NaverProductResult} {budget : Int} :
    ∀ q ∈ budget_pool products budget, q ∈ products := by
  intro q hq
  unfold budget_pool at hq
  dsimp only at hq
  split at hq
  · exact hq
  · exact List.mem_of_mem_filter hq

theorem select_best_matching_product_mem {products : List NaverProductResult}
    {budget : Int} {t : String} {p : NaverProductResult}
    (h : select_best_matching_product products budget t = some p) : p ∈ products := by
  unfold select_best_matching_product at h
  by_cases hl : (budget_pool products budget).length = 1
  · rw [if_pos hl] at h
    exact budget_pool_subset p (List.mem_of_mem_head? h)
  · rw [if_neg hl] at h
    rcases hpick : (pick_best (candidate_score budget t)
        (budget_pool products budget) (none, -1)).1 with _ | p0
    · rw [hpick] at h
      exact budget_pool_subset p (List.mem_of_mem_head? h)
    · rw [hpick] at h
      injection h with h
      subst h
      rcases pick_best_fst_mem _ _ _ _ hpick with hm | hst
      · exact budget_pool_subset p0 hm
      · cases hst

theorem gpt_validate_and_select_product_mem {j : Option String}
    {products : List NaverProductResult} {budget : Int} {t : String}
    {p : NaverProductResult}
    (h : gpt_validate_and_select_product j products budget t = some p) : p ∈ products := by
  cases j with
  | none => exact select_best_matching_product_mem h
  | some r =>
    unfold gpt_validate_and_select_product at h
    dsimp only at h
    by_cases hu : pyUpper r = "NONE"
    · rw [if_pos hu] at h
      cases h
    · rw [if_neg hu] at h
      rcases hparse : pyParseInt r with _ | k
      · rw [hparse] at h
        exact select_best_matching_product_mem h
      · rw [hparse] at h
        dsimp only at h
        split at h
        · injection h with h
          subst h
          exact List.get_mem _ _ _
        · exact select_best_matching_product_mem h

theorem convert_ai_rec_to_krw_link (r : GiftRecommendation) (b : Int) :
    (convert_ai_rec_to_krw r b).purchase_link = r.purchase_link := by
  unfold convert_ai_rec_to_krw
  split
  · rfl
  · rfl

theorem smart_integrate_go_links (budget : Int) (judge : Nat → Option String)
    (naver_products : List NaverProductResult)
    (hinj : ∀ p ∈ naver_products, ∀ q ∈ naver_products,
      p.link = q.link → p.productId = q.productId) :
    ∀ (recs : List GiftRecommendation) (i : Nat) (used : List String),
      (∀ r ∈ recs, r.purchase_link = none) →
      List.Pairwise LinksDistinct (smart_integrate_go budget judge naver_products i recs used)
      ∧ ∀ r ∈ smart_integrate_go budget judge naver_products i recs used,
          ∀ lk, r.purchase_link = some lk →
            ∃ p, p ∈ naver_products ∧ p.link = lk ∧ p.productId ∉ used := by
  intro recs
  induction recs with
  | nil =>
    intro i used _
    rw [smart_integrate_go]
    exact ⟨List.Pairwise.nil, by intro r hr; cases hr⟩
  | cons rec rest ih =>
    intro i used hlinks
    have hrec : rec.purchase_link = none := hlinks rec (List.mem_cons_self _ _)
    have hrest : ∀ r ∈ rest, r.purchase_link = none :=
      fun r hr => hlinks r (List.mem_cons_of_mem _ hr)
    have hconv :
        List.Pairwise LinksDistinct (convert_ai_rec_to_krw rec budget ::
          smart_integrate_go budget judge naver_products (i + 1) rest used)
        ∧ ∀ r ∈ (convert_ai_rec_to_krw rec budget ::
            smart_integrate_go budget judge naver_products (i + 1) rest used),
            ∀ lk, r.purchase_link = some lk →
              ∃ p, p ∈ naver_products ∧ p.link = lk ∧ p.productId ∉ used := by
      obtain ⟨hpair, hex⟩ := ih (i + 1) used hrest
      constructor
      · refine List.Pairwise.cons ?_ hpair
        intro r2 _ l1 l2 h1 _
        rw [convert_ai_rec_to_krw_link, hrec] at h1
        cases h1
      · intro r hr lk hlk
        rcases List.mem_cons.mp hr with rfl | hr
        · rw [convert_ai_rec_to_krw_link, hrec] at hlk
          cases hlk
        · exact hex r hr lk hlk
    have hbound : ∀ p : NaverProductResult, p ∈ naver_products → p.productId ∉ used →
        List.Pairwise LinksDistinct (create_enhanced_recommendation_with_product rec p ::
          smart_integrate_go budget judge naver_products (i + 1) rest (used ++ [p.productId]))
        ∧ ∀ r ∈ (create_enhanced_recommendation_with_product rec p ::
            smart_integrate_go budget judge naver_products (i + 1) rest (used ++ [p.productId])),
            ∀ lk, r.purchase_link = some lk →
              ∃ q, q ∈ naver_products ∧ q.link = lk ∧ q.productId ∉ used := by
      intro p hpmem hpunused
      obtain ⟨hpair, hex⟩ := ih (i + 1) (used ++ [p.productId]) hrest
      constructor
      · refine List.Pairwise.cons ?_ hpair
        intro r2 hr2 l1 l2 h1 h2
        have hl1 : l1 = p.link := by
          have hle : (create_enhanced_recommendation_with_product rec p).purchase_link
              = some p.link := rfl
          rw [hle] at h1
          injection h1 with h1
          exact h1.symm
        obtain ⟨q, hqmem, hqlink, hqunused⟩ := hex r2 hr2 l2 h2
        intro hll
        apply hqunused
        have hqid : q.productId = p.productId :=
          hinj q hqmem p hpmem (by rw [hqlink, ← hll, hl1])
        rw [hqid]
        exact List.mem_append_right _ (by simp)
      · intro r hr lk hlk
        rcases List.mem_cons.mp hr with rfl | hr
        · have hle : (create_enhanced_recommendation_with_product rec p).purchase_link
              = some p.link := rfl
          rw [hle] at hlk
          injection hlk with hlk
          exact ⟨p, hpmem, hlk, hpunused⟩
        · obtain ⟨q, hqmem, hqlink, hqunused⟩ := hex r hr lk hlk
          refine ⟨q, hqmem, hqlink, fun hu => hqunused (List.mem_append_left _ hu)⟩
    have hcand_rel : ∀ p ∈ naver_products.filter (fun p =>
        p.ai_recommendation_index == some i && decide (p.productId ∉ used)),
        p ∈ naver_products ∧ p.productId ∉ used := by
      intro p hp
      have hm := List.mem_filter.mp hp
      rw [Bool.and_eq_true] at hm
      exact ⟨hm.1, of_decide_eq_true hm.2.2⟩
    have hcand_fb : ∀ p ∈ (naver_products.filter (fun p =>
        decide (2 * p.lprice ≤ 3 * budget) && decide (p.productId ∉ used))).take 3,
        p ∈ naver_products ∧ p.productId ∉ used := by
      intro p hp
      have hm := List.mem_filter.mp (List.take_subset _ _ hp)
      rw [Bool.and_eq_true] at hm
      exact ⟨hm.1, of_decide_eq_true hm.2.2⟩
    rw [smart_integrate_go]
    split
    · split
      · exact hconv
      · split
        · rename_i p hp
          obtain ⟨h1, h2⟩ := hcand_fb p (gpt_validate_and_select_product_mem hp)
          exact hbound p h1 h2
        · exact hconv
    · split
      · rename_i p hp
        obtain ⟨h1, h2⟩ := hcand_rel p (gpt_validate_and_select_product_mem hp)
        exact hbound p h1 h2
      · exact hconv

/-! ## Claim C7 -/

/-- C7 (amended): within one session the consumed-id set guarantees that no
product id is bound twice, so distinct bound recommendations carry products
with distinct external ids; two returned recommendations carrying purchase
links therefore carry distinct links whenever equal links imply equal ids in
the product pool (the set is keyed by product id, not by link, so the
distinct-links guarantee is conditional on that injectivity). -/
theorem C7_distinct_purchase_links (ai_recommendations : List GiftRecommendation)
    (naver_products : List NaverProductResult) (request : GiftRequest)
    (judge : Nat → Option String)
    (hne : ai_recommendations ≠ [])
    (hlinks : ∀ r ∈ ai_recommendations, r.purchase_link = none)
    (hinj : ∀ p ∈ naver_products, ∀ q ∈ naver_products,
      p.link = q.link → p.productId = q.productId) :
    List.Pairwise LinksDistinct
      (smart_integrate_recommendations ai_recommendations naver_products request judge) := by
  unfold smart_integrate_recommendations
  rw [if_neg (by simpa [List.isEmpty_iff] using hne)]
  exact (smart_integrate_go_links _ judge naver_products hinj
    (ai_recommendations.take 3) 0 []
    (fun r hr => hlinks r (List.take_subset _ _ hr))).1

/-- C7 (witness): the distinct-links conclusion instantiated on one intent
and one product with the heuristic matcher. -/
theorem C7_distinct_purchase_links_witness :
    List.Pairwise LinksDistinct
      (smart_integrate_recommendations [c7_airec "가"] [c7_product 0 "a"] c7_request
        (fun _ => none)) :=
  C7_distinct_purchase_links [c7_airec "가"] [c7_product 0 "a"] c7_request (fun _ => none)
    (by decide) (by decide) (by decide)

/-- C7 (counterexample): two products with distinct external ids but one
shared purchase link get bound to the two intents — the consumed set is
keyed by product id, so both returned recommendations carry the same
purchase link, refuting the unconditional distinct-links claim. -/
theorem C7_counterexample_shared_link :
    ((smart_integrate_recommendations [c7_airec "가", c7_airec "나"]
        [c7_product 0 "a", c7_product 1 "b"] c7_request (fun _ => none)).map
      (fun r => r.purchase_link)) = [some "L", some "L"] := by
  with_unfolding_all decide

/-! ## Claim C10 -/

/-- C10: an intent with no products tagged to its own search draws from the
fallback pool, which admits any unconsumed product priced up to 1.5 times
the budget; the heuristic matcher always returns some candidate from a
non-empty list (even when every candidate exceeds the budget), so a
recommendation can be bound to a product priced above budgetMax — here a
140000-priced product against a 100000 budget. -/
theorem C10_fallback_overbudget_binding :
    ((smart_integrate_recommendations [c7_airec "가"] [c10_product] c7_request
        (fun _ => none)).map (fun r => (r.purchase_link, r.estimated_price)))
      = [(some "LZ", 140000)]
    ∧ c7_request.budget_max < c10_product.lprice
    ∧ (2 * c10_product.lprice ≤ 3 * c7_request.budget_max)
    ∧ ∀ (ps : List NaverProductResult) (b : Int) (t : String), ps ≠ [] →
        ∃ p, select_best_matching_product ps b t = some p := by
  refine ⟨?_, by decide, by decide, ?_⟩
  · with_unfolding_all decide
  · intro ps b t hne
    have hpoolne : budget_pool ps b ≠ [] := by
      unfold budget_pool
      dsimp only
      split
      · exact hne
      · rename_i hemp
        simpa [List.isEmpty_iff] using hemp
    unfold select_best_matching_product
    by_cases hl : (budget_pool ps b).length = 1
    · rw [if_pos hl]
      obtain ⟨x, hx⟩ := List.length_eq_one.mp hl
      exact ⟨x, by rw [hx]; rfl⟩
    · rw [if_neg hl]
      rcases hpick : (pick_best (candidate_score b t) (budget_pool ps b) (none, -1)).1
          with _ | p0
      · rcases hp : budget_pool ps b with _ | ⟨a, as⟩
        · exact absurd hp hpoolne
        · exact ⟨a, rfl⟩
      · exact ⟨p0, rfl⟩

/-- C10 (witness): the always-returns-a-candidate conclusion instantiated on
the concrete over-budget pool. -/
theorem C10_fallback_overbudget_binding_witness :
    ∃ p, select_best_matching_product [c10_product] 100000 "가" = some p :=
  C10_fallback_overbudget_binding.2.2.2 [c10_product] 100000 "가" (by decide)
